import Mathlib

/-!
Verification development for the vCompanion endpoint-connection and
encrypted-cache orchestration engine (src/app/services/cache_service.py,
src/app/services/vcenter_service.py, src/app/core/config.py).

The Python services are shallowly embedded: the category-partitioned cache
store (`CacheService`) becomes a pure state record with explicit disk state,
the refresh orchestrator (`VCenterManager`) and per-endpoint session
connector (`VCenterConnection`) become pure state-transition functions whose
external effects (network fetches, the liveness probe, the PBKDF2/Fernet
machinery) are supplied as explicit outcome parameters.  Timestamps are
integer seconds; Fernet authenticated encryption is modelled by a file that
records the key it was encrypted under, so that decryption succeeds exactly
when the same derived key is supplied and fails otherwise (wrong password or
a corrupt file).
-/

namespace VComp

/-- Association-list lookup, modelling Python `dict.get(k)`. -/
def lookup {α : Type} (m : List (String × α)) (k : String) : Option α :=
  (m.find? (fun p => p.1 == k)).map (fun p => p.2)

/-- Association-list upsert, modelling Python `d[k] = v`: replaces the value
in place when the key is present, appends otherwise (insertion order is
preserved, as for Python dicts). -/
def upsert {α : Type} (m : List (String × α)) (k : String) (v : α) :
    List (String × α) :=
  if m.any (fun p => p.1 == k) then
    m.map (fun p => if p.1 == k then (k, v) else p)
  else m ++ [(k, v)]

/-- Modelling Python `cur.update(loaded)`: every entry of `loaded` is
upserted into `cur`, in order. -/
def updateAll {α : Type} (cur loaded : List (String × α)) : List (String × α) :=
  loaded.foldl (fun acc p => upsert acc p.1 p.2) cur

/-- Keys of an association list are pairwise distinct (always true of the
Python dicts being modelled). -/
def keysNodup {α : Type} (m : List (String × α)) : Prop :=
  m.Pairwise (fun a b => a.1 ≠ b.1)

/-- One configured endpoint: `VCenterConfig` from src/app/core/config.py
(id, name, host, port, verify_ssl, refresh_interval).
Modelled from the spec: the `enabled` flag of the EndpointConfig registry.
The pydantic model in src/app/core/config.py (lines 6-12) does not declare
an `enabled` field, yet `cache_service.enabled_vc_ids` (cache_service.py:58),
`VCenterManager.__init__` (vcenter_service.py:18) and main.py:143 all read
`vc.enabled`; the spec's data model (§3) lists `enabled` as an EndpointConfig
attribute, so it is modelled here as a declared field. -/
structure VCenterConfig where
  id : String
  name : String
  host : String
  port : Nat
  verify_ssl : Bool
  refresh_interval : Option Nat
  enabled : Bool
deriving DecidableEq

/-- The relevant slice of the global `settings` object (src/app/core/config.py):
the endpoint registry and the global refresh interval. -/
structure Settings where
  vcenters : List VCenterConfig
  refresh_interval_seconds : Nat
deriving DecidableEq

/-- `CacheService.enabled_vc_ids` (cache_service.py:55-58): ids of the
currently enabled endpoints. -/
def enabled_vc_ids (s : Settings) : List String :=
  (s.vcenters.filter (fun vc => vc.enabled)).map (fun vc => vc.id)

/-- One cached VM record, restricted to the fields the verified operations
inspect (`vcenter_id`, `power_state`, `snapshot_count`; cf.
`get_vms_speed` and `get_cached_stats`). -/
structure VMRec where
  vcenter_id : String
  name : String
  power_state : String
  snapshot_count : Nat
deriving DecidableEq

/-- One cached host record, restricted to the fields the verified operations
inspect (`vcenter_id`, `in_maintenance`). -/
structure HostRec where
  vcenter_id : String
  name : String
  in_maintenance : Bool
deriving DecidableEq

/-- One cached alert record, restricted to the fields the verified operations
inspect (`vcenter_id`, `severity`). -/
structure AlertRec where
  vcenter_id : String
  severity : String
deriving DecidableEq

/-- One cached cluster record (content opaque to the verified operations). -/
structure ClusterRec where
  vcenter_id : String
  name : String
deriving DecidableEq

/-- The per-endpoint status entry written by `update_vcenter_status`
(cache_service.py:113-126): id, name, last_refresh timestamp, status string,
error message, plus any merged metadata key/value pairs. -/
structure VCStatus where
  id : String
  name : String
  last_refresh : Option Int
  status : String
  error_message : Option String
  metadata : List (String × Option String)
deriving DecidableEq

/-- The in-memory store `CacheService._data` (cache_service.py:44) together
with the lock state: seven category dictionaries keyed by endpoint id, the
derived Fernet key, and the unlocked flag.  Network and storage payloads are
opaque per-endpoint dictionaries, modelled as key/value lists. -/
structure CacheState where
  vcenters : List (String × VCStatus)
  vms : List (String × List VMRec)
  hosts : List (String × List HostRec)
  alerts : List (String × List AlertRec)
  networks : List (String × List (String × String))
  storage : List (String × List (String × String))
  clusters : List (String × List ClusterRec)
  fernet : Option (Nat × String)
  is_unlocked : Bool
deriving DecidableEq

/-- An encrypted category file on disk.  Fernet authenticated encryption is
modelled as the payload tagged with the key it was encrypted under:
decryption succeeds iff the same key is presented; `corrupt` is a tampered
or truncated file that fails authentication under every key. -/
inductive EncFile (α : Type) where
  | enc (key : Nat × String) (payload : α) : EncFile α
  | corrupt : EncFile α
deriving DecidableEq

/-- The on-disk layout (§6 of the spec, cache_service.py:79): one encrypted
file per cache category, or no file if the category was never saved. -/
structure DiskState where
  vcentersFile : Option (EncFile (List (String × VCStatus)))
  vmsFile : Option (EncFile (List (String × List VMRec)))
  hostsFile : Option (EncFile (List (String × List HostRec)))
  alertsFile : Option (EncFile (List (String × List AlertRec)))
  networksFile : Option (EncFile (List (String × List (String × String))))
  storageFile : Option (EncFile (List (String × List (String × String))))
  clustersFile : Option (EncFile (List (String × List ClusterRec)))
deriving DecidableEq

/-- Whether the underlying key-derivation machinery succeeds.  `derive_key`
(cache_service.py:60-69) returns False only when the PBKDF2/Fernet calls
themselves raise (the bare `except`); this external failure mode is an
explicit parameter, independent of the password's correctness. -/
inductive DeriveOutcome where
  | ok : DeriveOutcome
  | fail : DeriveOutcome
deriving DecidableEq

/-- The PBKDF2HMAC key derivation (cache_service.py:63-64): deterministic in
the salt and password; a derived key is modelled as the (salt, password)
pair, and `fail` models the unrecoverable-derivation-failure branch. -/
def kdf (outcome : DeriveOutcome) (password : String) (salt : Nat) :
    Option (Nat × String) :=
  match outcome with
  | .ok => some (salt, password)
  | .fail => none

/-- Decrypt one on-disk category file under a key: succeeds iff the file
exists, authenticates, and was encrypted under the same key. -/
def decryptFile {α : Type} (key : Nat × String) :
    Option (EncFile α) → Option α
  | some (.enc k payload) => if k = key then some payload else none
  | some .corrupt => none
  | none => none

/-- One iteration of `CacheService._load_from_disk` (cache_service.py:97-111)
for a single category: a missing or undecryptable file leaves the in-memory
category unchanged (the per-category `except` drops it); a decrypted dict is
merged with `dict.update`. -/
def loadCat {α : Type} (key : Nat × String)
    (file : Option (EncFile (List (String × α))))
    (cur : List (String × α)) : List (String × α) :=
  match decryptFile key file with
  | some payload => updateAll cur payload
  | none => cur

namespace CacheService

/-- `CacheService.__init__` (cache_service.py:39-53): empty categories,
no key, locked. -/
def init : CacheState :=
  { vcenters := []
    vms := []
    hosts := []
    alerts := []
    networks := []
    storage := []
    clusters := []
    fernet := none
    is_unlocked := false }

/-- `CacheService.derive_key` (cache_service.py:60-69): derive the key from
password and salt, flip to unlocked, then load every category file from
disk independently; returns False (state unchanged) only when the
derivation machinery itself fails. -/
def derive_key (outcome : DeriveOutcome) (password : String) (salt : Nat)
    (disk : DiskState) (c : CacheState) : Bool × CacheState :=
  match kdf outcome password salt with
  | none => (false, c)
  | some key =>
    (true,
      { c with
        fernet := some key
        is_unlocked := true
        vcenters := loadCat key disk.vcentersFile c.vcenters
        vms := loadCat key disk.vmsFile c.vms
        hosts := loadCat key disk.hostsFile c.hosts
        alerts := loadCat key disk.alertsFile c.alerts
        networks := loadCat key disk.networksFile c.networks
        storage := loadCat key disk.storageFile c.storage
        clusters := loadCat key disk.clustersFile c.clusters })

/-- `CacheService.lock` (cache_service.py:73-77): discard the key and reset
every in-memory category to empty. -/
def lock (c : CacheState) : CacheState :=
  { c with
    fernet := none
    is_unlocked := false
    vcenters := []
    vms := []
    hosts := []
    alerts := []
    networks := []
    storage := []
    clusters := [] }

/-- One write of `CacheService._save_to_disk` (cache_service.py:81-95) for a
single category: no file is touched when the store is locked or keyless. -/
def saveFile {α : Type} (c : CacheState) (m : α) (old : Option (EncFile α)) :
    Option (EncFile α) :=
  if c.is_unlocked then
    match c.fernet with
    | some key => some (.enc key m)
    | none => old
  else old

/-- `CacheService._save_to_disk` with no category argument: every category is
encrypted and written to its own file (no-op when locked or keyless). -/
def save_all_to_disk (c : CacheState) (disk : DiskState) : DiskState :=
  if c.is_unlocked then
    match c.fernet with
    | some key =>
      { vcentersFile := some (.enc key c.vcenters)
        vmsFile := some (.enc key c.vms)
        hostsFile := some (.enc key c.hosts)
        alertsFile := some (.enc key c.alerts)
        networksFile := some (.enc key c.networks)
        storageFile := some (.enc key c.storage)
        clustersFile := some (.enc key c.clusters) }
    | none => disk
  else disk

/-- `CacheService.update_vcenter_status` (cache_service.py:113-126): no-op on
a locked store; otherwise upsert the endpoint's status entry (timestamped
`now`, with any metadata merged in) and persist the vcenters category. -/
def update_vcenter_status (c : CacheState) (disk : DiskState)
    (vc_id nm st : String) (err : Option String)
    (metadata : List (String × Option String)) (now : Int) :
    CacheState × DiskState :=
  if c.is_unlocked then
    let entry : VCStatus :=
      { id := vc_id
        name := nm
        last_refresh := some now
        status := st
        error_message := err
        metadata := metadata }
    let c' := { c with vcenters := upsert c.vcenters vc_id entry }
    (c', { disk with vcentersFile := saveFile c' c'.vcenters disk.vcentersFile })
  else (c, disk)

/-- `CacheService.update_vcenter_metadata` (cache_service.py:128-134): no-op
on a locked store or for an unknown endpoint; otherwise merge the metadata
into the existing status entry and persist the vcenters category. -/
def update_vcenter_metadata (c : CacheState) (disk : DiskState)
    (vc_id : String) (metadata : List (String × Option String)) :
    CacheState × DiskState :=
  if c.is_unlocked then
    match lookup c.vcenters vc_id with
    | some st =>
      let st' := { st with metadata := updateAll st.metadata metadata }
      let c' := { c with vcenters := upsert c.vcenters vc_id st' }
      (c', { disk with vcentersFile := saveFile c' c'.vcenters disk.vcentersFile })
    | none => (c, disk)
  else (c, disk)

/-- `CacheService.save_vms` (cache_service.py:142-146): no-op on a locked
store; otherwise replace the endpoint's VM list and persist the category. -/
def save_vms (c : CacheState) (disk : DiskState) (vcenter_id : String)
    (vms : List VMRec) : CacheState × DiskState :=
  if c.is_unlocked then
    let c' := { c with vms := upsert c.vms vcenter_id vms }
    (c', { disk with vmsFile := saveFile c' c'.vms disk.vmsFile })
  else (c, disk)

/-- `CacheService.save_hosts` (cache_service.py:148-152). -/
def save_hosts (c : CacheState) (disk : DiskState) (vcenter_id : String)
    (hosts : List HostRec) : CacheState × DiskState :=
  if c.is_unlocked then
    let c' := { c with hosts := upsert c.hosts vcenter_id hosts }
    (c', { disk with hostsFile := saveFile c' c'.hosts disk.hostsFile })
  else (c, disk)

/-- `CacheService.save_alerts` (cache_service.py:154-158). -/
def save_alerts (c : CacheState) (disk : DiskState) (vcenter_id : String)
    (alerts : List AlertRec) : CacheState × DiskState :=
  if c.is_unlocked then
    let c' := { c with alerts := upsert c.alerts vcenter_id alerts }
    (c', { disk with alertsFile := saveFile c' c'.alerts disk.alertsFile })
  else (c, disk)

/-- `CacheService.save_networks` (cache_service.py:160-164). -/
def save_networks (c : CacheState) (disk : DiskState) (vcenter_id : String)
    (networks : List (String × String)) : CacheState × DiskState :=
  if c.is_unlocked then
    let c' := { c with networks := upsert c.networks vcenter_id networks }
    (c', { disk with networksFile := saveFile c' c'.networks disk.networksFile })
  else (c, disk)

/-- `CacheService.save_storage` (cache_service.py:166-170). -/
def save_storage (c : CacheState) (disk : DiskState) (vcenter_id : String)
    (storage : List (String × String)) : CacheState × DiskState :=
  if c.is_unlocked then
    let c' := { c with storage := upsert c.storage vcenter_id storage }
    (c', { disk with storageFile := saveFile c' c'.storage disk.storageFile })
  else (c, disk)

/-- `CacheService.save_clusters` (cache_service.py:172-176). -/
def save_clusters (c : CacheState) (disk : DiskState) (vcenter_id : String)
    (clusters : List ClusterRec) : CacheState × DiskState :=
  if c.is_unlocked then
    let c' := { c with clusters := upsert c.clusters vcenter_id clusters }
    (c', { disk with clustersFile := saveFile c' c'.clusters disk.clustersFile })
  else (c, disk)

/-- Entries of a cached category restricted to currently enabled endpoints:
the `if vc_id in enabled_ids` filter used by every read accessor. -/
def enabledEntries {α : Type} (s : Settings) (m : List (String × α)) :
    List (String × α) :=
  m.filter (fun p => (enabled_vc_ids s).contains p.1)

/-- `CacheService.get_vcenter_status` with an id (cache_service.py:136-138):
plain dict lookup, with no enabled filter. -/
def get_vcenter_status_one (c : CacheState) (vc_id : String) : Option VCStatus :=
  lookup c.vcenters vc_id

/-- `CacheService.get_vcenter_status` with no id (cache_service.py:139-140):
status entries of enabled endpoints only. -/
def get_vcenter_status_all (s : Settings) (c : CacheState) : List VCStatus :=
  (enabledEntries s c.vcenters).map (fun p => p.2)

/-- `CacheService.get_all_vms` (cache_service.py:178-185): concatenation of
the per-endpoint VM lists of enabled endpoints. -/
def get_all_vms (s : Settings) (c : CacheState) : List VMRec :=
  (enabledEntries s c.vms).flatMap (fun p => p.2)

/-- `CacheService.get_all_hosts` (cache_service.py:187-194). -/
def get_all_hosts (s : Settings) (c : CacheState) : List HostRec :=
  (enabledEntries s c.hosts).flatMap (fun p => p.2)

/-- `CacheService.get_all_alerts` (cache_service.py:196-203). -/
def get_all_alerts (s : Settings) (c : CacheState) : List AlertRec :=
  (enabledEntries s c.alerts).flatMap (fun p => p.2)

/-- `CacheService.get_all_clusters` (cache_service.py:205-212). -/
def get_all_clusters (s : Settings) (c : CacheState) : List ClusterRec :=
  (enabledEntries s c.clusters).flatMap (fun p => p.2)

/-- `CacheService.get_all_networks` (cache_service.py:214-217): the
per-endpoint network dicts of enabled endpoints. -/
def get_all_networks (s : Settings) (c : CacheState) :
    List (String × List (String × String)) :=
  enabledEntries s c.networks

/-- `CacheService.get_all_storage` (cache_service.py:219-222). -/
def get_all_storage (s : Settings) (c : CacheState) :
    List (String × List (String × String)) :=
  enabledEntries s c.storage

end CacheService

end VComp

namespace VComp

/-- One row of the per-endpoint breakdown built by `get_cached_stats`
(cache_service.py:251-259). -/
structure PerVC where
  name : String
  connected : Bool
  vms : Nat
  vms_on : Nat
  hosts : Nat
  hosts_maint : Nat
  snapshots : Nat
  critical : Nat
  warning : Nat
deriving DecidableEq

/-- The aggregate returned by `get_cached_stats` (cache_service.py:224-291).
The "no data" early return (line 249) carries only `total_vms: "N/A"`,
`has_data: False` and empty `raw_alerts`; it is modelled with
`total_vms = none` and zero/empty defaults for the remaining fields. -/
structure CachedStats where
  total_vms : Option Nat
  powered_on_vms : Nat
  snapshot_count : Nat
  host_count : Nat
  maintenance_hosts : Nat
  critical_alerts : Nat
  warning_alerts : Nat
  per_vcenter : List (String × PerVC)
  has_data : Bool
  raw_alerts : List AlertRec
deriving DecidableEq

/-- Python `if vc_id in per_vcenter: <mutate per_vcenter[vc_id]>`: apply `f`
to the entry at `k` when present, leave the map unchanged otherwise. -/
def adjust (m : List (String × PerVC)) (k : String) (f : PerVC → PerVC) :
    List (String × PerVC) :=
  m.map (fun p => if p.1 == k then (p.1, f p.2) else p)

namespace CacheService

/-- `CacheService.get_cached_stats` (cache_service.py:224-291): fold the
enabled endpoints' cached VM, host and alert snapshots into global counts
and a per-endpoint breakdown; when every aggregate count is zero, return the
`has_data = False` / `total_vms = "N/A"` record instead. -/
def get_cached_stats (s : Settings) (c : CacheState) : CachedStats :=
  let vmsL := (enabledEntries s c.vms).flatMap (fun p => p.2)
  let hostsL := (enabledEntries s c.hosts).flatMap (fun p => p.2)
  let alertsL := (enabledEntries s c.alerts).flatMap (fun p => p.2)
  let total_vms := vmsL.length
  let total_hosts := hostsL.length
  let total_maintenance := (hostsL.filter (fun h => h.in_maintenance)).length
  let powered_on := (vmsL.filter (fun vm => vm.power_state == "poweredOn")).length
  let total_snapshots := (vmsL.map (fun vm => vm.snapshot_count)).sum
  let total_critical := (alertsL.filter (fun a => a.severity == "critical")).length
  let total_warning := (alertsL.filter (fun a => a.severity == "warning")).length
  if total_vms = 0 ∧ total_hosts = 0 ∧ total_critical = 0 ∧ total_warning = 0 then
    { total_vms := none
      powered_on_vms := 0
      snapshot_count := 0
      host_count := 0
      maintenance_hosts := 0
      critical_alerts := 0
      warning_alerts := 0
      per_vcenter := []
      has_data := false
      raw_alerts := [] }
  else
    let pv0 : List (String × PerVC) :=
      (enabledEntries s c.vcenters).map (fun p =>
        (p.1,
          { name := p.2.name
            connected := p.2.status == "READY"
            vms := 0
            vms_on := 0
            hosts := 0
            hosts_maint := 0
            snapshots := 0
            critical := 0
            warning := 0 }))
    let pv1 := vmsL.foldl (fun acc vm =>
      adjust acc vm.vcenter_id (fun e =>
        { e with
          vms := e.vms + 1
          vms_on := if vm.power_state == "poweredOn" then e.vms_on + 1 else e.vms_on
          snapshots := e.snapshots + vm.snapshot_count })) pv0
    let pv2 := hostsL.foldl (fun acc h =>
      adjust acc h.vcenter_id (fun e =>
        { e with
          hosts := e.hosts + 1
          hosts_maint := if h.in_maintenance then e.hosts_maint + 1 else e.hosts_maint })) pv1
    let pv3 := alertsL.foldl (fun acc a =>
      adjust acc a.vcenter_id (fun e =>
        if a.severity == "critical" then { e with critical := e.critical + 1 }
        else { e with warning := e.warning + 1 })) pv2
    { total_vms := some total_vms
      powered_on_vms := powered_on
      snapshot_count := total_snapshots
      host_count := total_hosts
      maintenance_hosts := total_maintenance
      critical_alerts := total_critical
      warning_alerts := total_warning
      per_vcenter := pv3
      has_data := true
      raw_alerts := alertsL }

end CacheService

end VComp

namespace VComp

/-- Python `pat in s`: substring test via `splitOn`. -/
def containsSub (s pat : String) : Bool :=
  (s.splitOn pat).length > 1

/-- The mutable state of one `VCenterConnection` (vcenter_service.py:293-300):
its config, whether a session handle (`si`) and service content (`content`)
are held, and the last classified connection error. -/
structure ConnState where
  config : VCenterConfig
  si : Bool
  content : Bool
  last_error_type : Option String
deriving DecidableEq

/-- `VCenterConnection.__init__` (vcenter_service.py:294-300). -/
def VCenterConnection.init (cfg : VCenterConfig) : ConnState :=
  { config := cfg, si := false, content := false, last_error_type := none }

/-- How one connection attempt against the remote SDK terminates: success,
or one of the exception classes handled by `VCenterConnection.connect`
(vcenter_service.py:484-522).  `osError` and `sslError` carry the exception
message the handler inspects. -/
inductive ConnectOutcome where
  | success : ConnectOutcome
  | invalidLogin : ConnectOutcome
  | connectionRefused : ConnectOutcome
  | connectionReset : ConnectOutcome
  | connectionAborted : ConnectOutcome
  | timeoutError : ConnectOutcome
  | socketTimeout : ConnectOutcome
  | sslError (msg : String) : ConnectOutcome
  | osError (msg : String) : ConnectOutcome
  | otherError (msg : String) : ConnectOutcome
deriving DecidableEq

/-- The `(success, error_type, error_msg)` triple returned by
`VCenterConnection.connect` (vcenter_service.py:474-475). -/
structure ConnectResult where
  success : Bool
  error_type : Option String
  error_msg : Option String
deriving DecidableEq

/-- `VCenterConnection.connect` (vcenter_service.py:471-522): on success,
store the session handle and reset the error state; on failure, classify the
exception into 'auth' / 'network' / 'timeout' / 'ssl' / 'unknown', record it
in `last_error_type`, and surface it in the returned triple.  The session
fields are left as they were when the attempt raises before assignment. -/
def VCenterConnection.connect (conn : ConnState) (outcome : ConnectOutcome) :
    ConnState × ConnectResult :=
  match outcome with
  | .success =>
    ({ conn with si := true, content := true, last_error_type := none },
     { success := true, error_type := none, error_msg := none })
  | .invalidLogin =>
    ({ conn with last_error_type := some "auth" },
     { success := false, error_type := some "auth",
       error_msg := some "Invalid username or password" })
  | .connectionRefused =>
    ({ conn with last_error_type := some "network" },
     { success := false, error_type := some "network",
       error_msg := some "Connection refused - vCenter may be down or unreachable" })
  | .connectionReset =>
    ({ conn with last_error_type := some "network" },
     { success := false, error_type := some "network",
       error_msg := some "Connection refused - vCenter may be down or unreachable" })
  | .connectionAborted =>
    ({ conn with last_error_type := some "network" },
     { success := false, error_type := some "network",
       error_msg := some "Connection refused - vCenter may be down or unreachable" })
  | .timeoutError =>
    ({ conn with last_error_type := some "timeout" },
     { success := false, error_type := some "timeout",
       error_msg := some "Connection timeout - check network connectivity or VPN" })
  | .socketTimeout =>
    ({ conn with last_error_type := some "timeout" },
     { success := false, error_type := some "timeout",
       error_msg := some "Connection timeout - check network connectivity or VPN" })
  | .sslError msg =>
    ({ conn with last_error_type := some "ssl" },
     { success := false, error_type := some "ssl",
       error_msg := some ("SSL certificate error: " ++ msg) })
  | .osError msg =>
    if containsSub msg.toLower "timed out" then
      ({ conn with last_error_type := some "timeout" },
       { success := false, error_type := some "timeout",
         error_msg := some "Network timeout - check VPN or network connectivity" })
    else if containsSub msg.toLower "no route to host" ∨
            containsSub msg.toLower "unreachable" then
      ({ conn with last_error_type := some "network" },
       { success := false, error_type := some "network",
         error_msg := some "Host unreachable - check network or VPN connection" })
    else
      ({ conn with last_error_type := some "network" },
       { success := false, error_type := some "network",
         error_msg := some ("Network error: " ++ msg) })
  | .otherError msg =>
    ({ conn with last_error_type := some "unknown" },
     { success := false, error_type := some "unknown",
       error_msg := some ("Unexpected error: " ++ msg) })

/-- Whether the `CurrentTime()` liveness round-trip succeeds or raises. -/
inductive ProbeOutcome where
  | ok : ProbeOutcome
  | throws : ProbeOutcome
deriving DecidableEq

/-- `VCenterConnection.is_alive` (vcenter_service.py:302-307): False when no
session is held; otherwise probe the session, returning True on success and
False when the probe raises.  The `except` branch returns without touching
`self.si`, so the session reference survives a failed probe. -/
def VCenterConnection.is_alive (conn : ConnState) (probe : ProbeOutcome) :
    Bool × ConnState :=
  if conn.si then
    match probe with
    | .ok => (true, conn)
    | .throws => (false, conn)
  else (false, conn)

/-- `VCenterConnection.disconnect` (vcenter_service.py:524-529): idempotent;
drops the session handle and content reference when present. -/
def VCenterConnection.disconnect (conn : ConnState) : ConnState :=
  if conn.si then { conn with si := false, content := false } else conn

/-- How the body of one fetch method terminates: a value, or an exception
somewhere inside it (which the method's own `try`/`except` turns into an
empty result). -/
inductive FetchResult (α : Type) where
  | ok (val : α) : FetchResult α
  | threw : FetchResult α
deriving DecidableEq

/-- `VCenterConnection.get_hosts_speed` (vcenter_service.py:673-792): empty
when no content is held; otherwise the fetched hosts, degrading to the empty
list when the body raises (the catch-all at lines 790-792). -/
def VCenterConnection.get_hosts_speed (conn : ConnState)
    (body : FetchResult (List HostRec)) : List HostRec :=
  if conn.content then (match body with | .ok v => v | .threw => []) else []

/-- `VCenterConnection.get_vms_speed` (vcenter_service.py:531-671): same
degradation shape; the cached host list is used only to resolve host names
inside the records, which this model keeps opaque. -/
def VCenterConnection.get_vms_speed (conn : ConnState)
    (_cached_hosts : List HostRec) (body : FetchResult (List VMRec)) :
    List VMRec :=
  if conn.content then (match body with | .ok v => v | .threw => []) else []

/-- `VCenterConnection.get_alerts_speed` (vcenter_service.py:962-1051): empty
when no content is held; otherwise the fetched alerts, degrading to the
empty list when the body raises (the catch-all at lines 1049-1051). -/
def VCenterConnection.get_alerts_speed (conn : ConnState)
    (body : FetchResult (List AlertRec)) : List AlertRec :=
  if conn.content then (match body with | .ok v => v | .threw => []) else []

/-- `VCenterConnection.get_networks_speed` (vcenter_service.py:1053 ff.):
degrades to an empty dict. -/
def VCenterConnection.get_networks_speed (conn : ConnState)
    (body : FetchResult (List (String × String))) : List (String × String) :=
  if conn.content then (match body with | .ok v => v | .threw => []) else []

/-- `VCenterConnection.get_clusters` (vcenter_service.py:809-903):
degrades to an empty list. -/
def VCenterConnection.get_clusters (conn : ConnState)
    (body : FetchResult (List ClusterRec)) : List ClusterRec :=
  if conn.content then (match body with | .ok v => v | .threw => []) else []

/-- `VCenterConnection.get_storage_speed`: degrades to an empty dict, like
the other fetchers. -/
def VCenterConnection.get_storage_speed (conn : ConnState)
    (body : FetchResult (List (String × String))) : List (String × String) :=
  if conn.content then (match body with | .ok v => v | .threw => []) else []

/-- The `content.about` record read at refresh step 7
(vcenter_service.py:102-112). -/
structure AboutInfo where
  version : String
  build : String
  fullName : String
  apiType : String
deriving DecidableEq

/-- The outcomes of every remote call one refresh cycle performs, supplied
as an explicit environment: the six category-fetch bodies and the
`content.about` access.  Unlike the fetch bodies, the `about` access
(vcenter_service.py:103) is not wrapped in its own handler, so its failure
propagates to `_refresh_task`'s outer `except`. -/
structure FetchOutcomes where
  hostsBody : FetchResult (List HostRec)
  vmsBody : FetchResult (List VMRec)
  alertsBody : FetchResult (List AlertRec)
  networksBody : FetchResult (List (String × String))
  clustersBody : FetchResult (List ClusterRec)
  storageBody : FetchResult (List (String × String))
  about : FetchResult AboutInfo
deriving DecidableEq

end VComp

namespace VComp

/-- The mutable state of the `VCenterManager` (vcenter_service.py:15-25):
the enabled configs, one connection per enabled endpoint, and the
last-refresh-trigger timestamp map. -/
structure ManagerState where
  configs : List VCenterConfig
  connections : List (String × ConnState)
  last_refresh_trigger : List (String × Int)
deriving DecidableEq

namespace VCenterManager

/-- `VCenterManager.__init__` (vcenter_service.py:16-25): filter the
configured endpoints to the enabled ones and build one connection and one
zeroed trigger timestamp per enabled endpoint. -/
def init (configs : List VCenterConfig) : ManagerState :=
  let en := configs.filter (fun cfg => cfg.enabled)
  { configs := en
    connections := en.map (fun cfg => (cfg.id, VCenterConnection.init cfg))
    last_refresh_trigger := en.map (fun cfg => (cfg.id, 0)) }

/-- `VCenterManager.trigger_refresh` (vcenter_service.py:58-62): no-op when
the cache is locked or the endpoint is unknown; otherwise record the trigger
timestamp and spawn the refresh task.  The returned flag records whether a
task was spawned. -/
def trigger_refresh (m : ManagerState) (c : CacheState) (vc_id : String)
    (now : Int) : ManagerState × Bool :=
  if c.is_unlocked ∧ m.connections.any (fun p => p.1 == vc_id) then
    ({ m with last_refresh_trigger := upsert m.last_refresh_trigger vc_id now },
     true)
  else (m, false)

/-- Result of one `_refresh_task` run: the cache and disk afterwards, and
whether the cycle body executed (`executed = false` exactly when the
duplicate-REFRESHING guard returned before any fetch or status write). -/
structure RefreshTaskResult where
  cache : CacheState
  disk : DiskState
  executed : Bool
deriving DecidableEq

/-- The duplicate-REFRESHING guard of `_refresh_task`
(vcenter_service.py:70-73): true exactly when the endpoint's cached status
is REFRESHING and its last_refresh timestamp is less than 300 seconds old
(the `status and status.get('status') == 'REFRESHING'` check followed by
`lt and (now - fromisoformat(lt)).total_seconds() < 300`). -/
def refreshDupGuard (c : CacheState) (vc_id : String) (now : Int) : Bool :=
  match CacheService.get_vcenter_status_one c vc_id with
  | some st =>
    if st.status == "REFRESHING" then
      match st.last_refresh with
      | some lt => decide (now - lt < 300)
      | none => false
    else false
  | none => false

/-- `VCenterManager._refresh_task` (vcenter_service.py:68-119).  The guard
(lines 70-73) returns early when the endpoint's cached status is REFRESHING
and less than 300 seconds old.  Otherwise the cycle writes REFRESHING, runs
the six fetch sub-steps in order (each degrading to an empty result when its
body raises), saves each result, reads `content.about`, and finishes with a
READY status carrying the metadata — or, when the unguarded `about` access
raises, falls into the outer `except` and writes an ERROR status. -/
def refresh_task (c : CacheState) (disk : DiskState) (conn : ConnState)
    (vc_id : String) (out : FetchOutcomes) (now : Int) : RefreshTaskResult :=
  if refreshDupGuard c vc_id now then
    { cache := c, disk := disk, executed := false }
  else
    let s1 := CacheService.update_vcenter_status c disk vc_id conn.config.name
      "REFRESHING" none [] now
    let hosts := VCenterConnection.get_hosts_speed conn out.hostsBody
    let s2 := CacheService.save_hosts s1.1 s1.2 vc_id hosts
    let vms := VCenterConnection.get_vms_speed conn hosts out.vmsBody
    let s3 := CacheService.save_vms s2.1 s2.2 vc_id vms
    let alerts := VCenterConnection.get_alerts_speed conn out.alertsBody
    let s4 := CacheService.save_alerts s3.1 s3.2 vc_id alerts
    let networks := VCenterConnection.get_networks_speed conn out.networksBody
    let s5 := CacheService.save_networks s4.1 s4.2 vc_id networks
    let clusters := VCenterConnection.get_clusters conn out.clustersBody
    let s6 := CacheService.save_clusters s5.1 s5.2 vc_id clusters
    let storage := VCenterConnection.get_storage_speed conn out.storageBody
    let s7 := CacheService.save_storage s6.1 s6.2 vc_id storage
    match (if conn.content then out.about else FetchResult.threw) with
    | .ok about =>
      let md : List (String × Option String) :=
        [("version", some about.version), ("build", some about.build),
         ("full_name", some about.fullName), ("api_type", some about.apiType),
         ("fqdn", some conn.config.host), ("ssh_enabled", none)]
      let s8 := CacheService.update_vcenter_status s7.1 s7.2 vc_id
        conn.config.name "READY" none md now
      { cache := s8.1, disk := s8.2, executed := true }
    | .threw =>
      let s8 := CacheService.update_vcenter_status s7.1 s7.2 vc_id
        conn.config.name "ERROR" (some "refresh failed") [] now
      { cache := s8.1, disk := s8.2, executed := true }

/-- Accumulated result of `connect_all`: the per-endpoint result map, the
cache and manager states afterwards, and the list of endpoint ids on which a
connection attempt was actually made. -/
structure ConnectAllOutcome where
  results : List (String × ConnectResult)
  cache : CacheState
  manager : ManagerState
  attempted : List String
deriving DecidableEq

/-- One iteration of the `for vid in target_ids` loop of `connect_all`
(vcenter_service.py:132-141): skip unknown ids; otherwise attempt the
connection with the per-endpoint outcome `behavior vid`, record the result
triple, and enqueue a refresh on success. -/
def connect_all_step (behavior : String → ConnectOutcome) (now : Int)
    (acc : ConnectAllOutcome) (vid : String) : ConnectAllOutcome :=
  match lookup acc.manager.connections vid with
  | some conn =>
    let r := VCenterConnection.connect conn (behavior vid)
    let m1 := { acc.manager with connections := upsert acc.manager.connections vid r.1 }
    let m2 := if r.2.success then (trigger_refresh m1 acc.cache vid now).1 else m1
    { results := acc.results ++ [(vid, r.2)]
      cache := acc.cache
      manager := m2
      attempted := acc.attempted ++ [vid] }
  | none => acc

/-- `VCenterManager.connect_all` (vcenter_service.py:121-142): if the cache
is locked, first call `derive_key`; when that fails, return the empty result
map immediately with nothing attempted.  Otherwise connect to each targeted
endpoint (all known endpoints when no non-empty selection is given)
independently, enqueuing a refresh after each success. -/
def connect_all (m : ManagerState) (c : CacheState) (disk : DiskState)
    (env : DeriveOutcome) (password : String) (salt : Nat)
    (behavior : String → ConnectOutcome)
    (selected : Option (List String)) (now : Int) : ConnectAllOutcome :=
  let unlocked : Option CacheState :=
    if c.is_unlocked then some c
    else
      let r := CacheService.derive_key env password salt disk c
      if r.1 then some r.2 else none
  match unlocked with
  | none => { results := [], cache := c, manager := m, attempted := [] }
  | some c1 =>
    let target_ids : List String :=
      match selected with
      | some ids => if ids.length > 0 then ids else m.connections.map (fun p => p.1)
      | none => m.connections.map (fun p => p.1)
    target_ids.foldl (connect_all_step behavior now)
      { results := [], cache := c1, manager := m, attempted := [] }

end VCenterManager

end VComp

namespace VComp

lemma lookup_upsert {α : Type} (m : List (String × α)) (k : String) (v : α) :
    lookup (upsert m k v) k = some v := by
  induction m with
  | nil => simp [upsert, lookup]
  | cons hd tl ih =>
    by_cases h : hd.1 = k
    · simp [upsert, lookup, h]
    · by_cases h2 : tl.any (fun p => p.1 == k)
      · have hmap : upsert (hd :: tl) k v =
            hd :: tl.map (fun p => if p.1 == k then (k, v) else p) := by
          simp [upsert, h, h2]
        rw [hmap]
        have htl : upsert tl k v = tl.map (fun p => if p.1 == k then (k, v) else p) := by
          simp [upsert, h2]
        rw [htl] at ih
        simpa [lookup, h] using ih
      · have hmap : upsert (hd :: tl) k v = hd :: (tl ++ [(k, v)]) := by
          simp [upsert, h, h2]
        rw [hmap]
        have htl : upsert tl k v = tl ++ [(k, v)] := by
          simp [upsert, h2]
        rw [htl] at ih
        simpa [lookup, h] using ih

lemma upsert_not_mem {α : Type} (m : List (String × α)) (k : String) (v : α)
    (h : m.any (fun p => p.1 == k) = false) : upsert m k v = m ++ [(k, v)] := by
  simp [upsert, h]

lemma map_fst_upd {α : Type} (m : List (String × α)) (k : String) (v : α) :
    (m.map (fun p => if p.1 == k then (k, v) else p)).map Prod.fst = m.map Prod.fst := by
  simp only [List.map_map]
  apply List.map_congr_left
  intro p _
  by_cases hh : p.1 = k
  · simp [hh]
  · simp [hh]

lemma keys_upsert_mem {α : Type} (m : List (String × α)) (k : String) (v : α)
    (h : m.any (fun p => p.1 == k) = true) :
    (upsert m k v).map Prod.fst = m.map Prod.fst := by
  unfold upsert
  rw [if_pos h]
  exact map_fst_upd m k v

lemma lookup_cons_ne {α : Type} (hd : String × α) (tl : List (String × α))
    (k : String) (h : ¬ hd.1 = k) : lookup (hd :: tl) k = lookup tl k := by
  simp [lookup, List.find?_cons, h]

lemma lookup_some_pair_mem {α : Type} (m : List (String × α)) (k : String) (c : α)
    (h : lookup m k = some c) : (k, c) ∈ m := by
  unfold lookup at h
  cases hf : m.find? (fun p => p.1 == k) with
  | none => rw [hf] at h; simp at h
  | some q =>
    rw [hf] at h
    have hbc : q.2 = c := by simpa using h
    have hab : q.1 = k := by simpa using List.find?_some hf
    have hm := List.mem_of_find?_eq_some hf
    have hqe : q = (k, c) := Prod.ext hab hbc
    rw [hqe] at hm
    exact hm

lemma lookup_some_any {α : Type} (m : List (String × α)) (k : String) (c : α)
    (h : lookup m k = some c) : m.any (fun p => p.1 == k) = true := by
  exact List.any_eq_true.mpr ⟨(k, c), lookup_some_pair_mem m k c h, by simp⟩

lemma lookup_some_mem_keys {α : Type} (m : List (String × α)) (k : String) (c : α)
    (h : lookup m k = some c) : k ∈ m.map Prod.fst :=
  List.mem_map.mpr ⟨(k, c), lookup_some_pair_mem m k c h, rfl⟩

lemma updateAll_append {α : Type} (l : List (String × α)) :
    ∀ cur : List (String × α),
      (∀ p ∈ l, cur.any (fun q => q.1 == p.1) = false) → keysNodup l →
      updateAll cur l = cur ++ l := by
  induction l with
  | nil => intro cur _ _; simp [updateAll]
  | cons hd tl ih =>
    intro cur hdisj hnodup
    have hhd : cur.any (fun q => q.1 == hd.1) = false := hdisj hd (by simp)
    have hstep : updateAll cur (hd :: tl) = updateAll (cur ++ [hd]) tl := by
      simp [updateAll, upsert_not_mem cur hd.1 hd.2 hhd]
    rw [hstep]
    have hnd : keysNodup tl := (List.pairwise_cons.mp hnodup).2
    have hne : ∀ p ∈ tl, hd.1 ≠ p.1 := (List.pairwise_cons.mp hnodup).1
    have hdisj' : ∀ p ∈ tl, (cur ++ [hd]).any (fun q => q.1 == p.1) = false := by
      intro p hp
      have h1 : cur.any (fun q => q.1 == p.1) = false := hdisj p (by simp [hp])
      have h2 : (hd.1 == p.1) = false := by
        simp [hne p hp]
      simp [List.any_append, h1, h2]
    rw [ih (cur ++ [hd]) hdisj' hnd]
    simp

lemma updateAll_nil {α : Type} (l : List (String × α)) (h : keysNodup l) :
    updateAll [] l = l := by
  have := updateAll_append l [] (by intro p _; simp) h
  simpa using this

lemma enabledEntries_dropKey {α : Type} (s : Settings) (d : String)
    (hd : (enabled_vc_ids s).contains d = false) (m : List (String × α)) :
    CacheService.enabledEntries s (m.filter (fun p => !(p.1 == d))) =
      CacheService.enabledEntries s m := by
  induction m with
  | nil => rfl
  | cons p tl ih =>
    by_cases h : p.1 = d
    · have hen : (enabled_vc_ids s).contains p.1 = false := by rw [h]; exact hd
      have h1 : List.filter (fun p => !(p.1 == d)) (p :: tl) =
          List.filter (fun p => !(p.1 == d)) tl := by
        simp [List.filter_cons, h]
      rw [h1, ih]
      simp only [CacheService.enabledEntries, List.filter_cons, hen]
      simp
    · have h1 : List.filter (fun p => !(p.1 == d)) (p :: tl) =
          p :: List.filter (fun p => !(p.1 == d)) tl := by
        simp [List.filter_cons, h]
      rw [h1]
      simp only [CacheService.enabledEntries, List.filter_cons] at ih ⊢
      rw [ih]

end VComp

namespace VComp

/-- The cache state with every entry stored under endpoint id `d` removed
from every in-memory category: used to state that read accessors are
insensitive to the cached data of a disabled endpoint. -/
def dropEndpoint (c : CacheState) (d : String) : CacheState :=
  { c with
    vcenters := c.vcenters.filter (fun p => !(p.1 == d))
    vms := c.vms.filter (fun p => !(p.1 == d))
    hosts := c.hosts.filter (fun p => !(p.1 == d))
    alerts := c.alerts.filter (fun p => !(p.1 == d))
    networks := c.networks.filter (fun p => !(p.1 == d))
    storage := c.storage.filter (fun p => !(p.1 == d))
    clusters := c.clusters.filter (fun p => !(p.1 == d)) }

/-- An enabled endpoint configuration used by concrete witnesses. -/
def cfgVC1 : VCenterConfig :=
  { id := "vc1"
    name := "VC One"
    host := "vc1.example"
    port := 443
    verify_ssl := false
    refresh_interval := none
    enabled := true }

/-- A disabled endpoint configuration used by concrete witnesses. -/
def cfgVC2 : VCenterConfig :=
  { id := "vc2"
    name := "VC Two"
    host := "vc2.example"
    port := 443
    verify_ssl := false
    refresh_interval := none
    enabled := false }

/-- A registry with one enabled and one disabled endpoint. -/
def settingsEx : Settings :=
  { vcenters := [cfgVC1, cfgVC2], refresh_interval_seconds := 120 }

/-- A READY status entry recording a completed refresh of endpoint vc1. -/
def statusReadyVC1 : VCStatus :=
  { id := "vc1"
    name := "VC One"
    last_refresh := some 1000
    status := "READY"
    error_message := none
    metadata := [] }

/-- A cache state in which endpoint vc1 has completed a refresh that found
zero VMs, zero hosts and zero alerts. -/
def cacheAfterEmptyRefresh : CacheState :=
  { vcenters := [("vc1", statusReadyVC1)]
    vms := [("vc1", [])]
    hosts := [("vc1", [])]
    alerts := [("vc1", [])]
    networks := [("vc1", [])]
    storage := [("vc1", [])]
    clusters := [("vc1", [])]
    fernet := some (7, "pw")
    is_unlocked := true }

end VComp

/-- Claim C7 counterexample: a cache state recording a completed refresh of
an enabled endpoint (status READY with a last_refresh timestamp) whose
snapshots contain zero VMs, zero hosts and zero alerts is reported by
`get_cached_stats` with `has_data = false` and `total_vms = "N/A"` — the
claim demands `has_data = true` there. -/
theorem claim_C7_counterexample :
    (VComp.CacheService.get_cached_stats VComp.settingsEx
        VComp.cacheAfterEmptyRefresh).has_data = false ∧
    (VComp.CacheService.get_vcenter_status_one VComp.cacheAfterEmptyRefresh
        "vc1").map (fun st => st.status) = some "READY" ∧
    (VComp.CacheService.get_cached_stats VComp.settingsEx
        VComp.cacheAfterEmptyRefresh).total_vms = none := by
  refine ⟨?_, ?_, ?_⟩ <;> decide

/-- Claim C7 (amended): `get_cached_stats` reports `has_data = false` exactly
when the aggregated data of enabled endpoints has zero VMs, zero hosts, zero
critical alerts and zero warning alerts; in particular a completed refresh
whose counts are all zero is still reported as `has_data = false`, so "zero"
is not distinguishable from "no data". -/
theorem claim_C7_amended (s : VComp.Settings) (c : VComp.CacheState) :
    (VComp.CacheService.get_cached_stats s c).has_data = false ↔
      (VComp.CacheService.get_all_vms s c = [] ∧
       VComp.CacheService.get_all_hosts s c = [] ∧
       (VComp.CacheService.get_all_alerts s c).filter
         (fun a => a.severity == "critical") = [] ∧
       (VComp.CacheService.get_all_alerts s c).filter
         (fun a => a.severity == "warning") = []) := by
  unfold VComp.CacheService.get_cached_stats
  dsimp only
  split
  case isTrue h =>
    refine ⟨fun _ => ?_, fun _ => rfl⟩
    obtain ⟨h1, h2, h3, h4⟩ := h
    rw [List.length_eq_zero] at h1 h2 h3 h4
    exact ⟨h1, h2, h3, h4⟩
  case isFalse h =>
    constructor
    · intro hf; exact absurd hf (by simp)
    · intro hr
      obtain ⟨h1, h2, h3, h4⟩ := hr
      unfold VComp.CacheService.get_all_vms at h1
      unfold VComp.CacheService.get_all_hosts at h2
      unfold VComp.CacheService.get_all_alerts at h3 h4
      exact absurd ⟨by rw [h1]; rfl, by rw [h2]; rfl, by rw [h3]; rfl,
        by rw [h4]; rfl⟩ h

namespace VComp

/-- A freshly constructed connection for the enabled endpoint vc1. -/
def connEx : ConnState := VCenterConnection.init cfgVC1

/-- A connection currently holding a session handle and content reference. -/
def connLive : ConnState :=
  { config := cfgVC1, si := true, content := true, last_error_type := none }

end VComp

/-- Claim C8 counterexample: a TLS certificate-validation failure is
classified by `VCenterConnection.connect` with error kind "ssl", which is
not the "tls" kind the claim's taxonomy names, and "ssl" is not a member of
the claimed taxonomy \x7bauth, network, timeout, tls, unknown\x7d at all. -/
theorem claim_C8_counterexample :
    (VComp.VCenterConnection.connect VComp.connEx
        (VComp.ConnectOutcome.sslError "certificate verify failed")).2.error_type =
      some "ssl" ∧
    some "ssl" ≠ some "tls" ∧
    (["auth", "network", "timeout", "tls", "unknown"].contains "ssl") = false := by
  refine ⟨?_, ?_, ?_⟩ <;> decide

/-- Claim C8 (amended): every failing connection attempt is classified into
exactly the taxonomy \x7bauth, network, timeout, ssl, unknown\x7d — the code
names the TLS/certificate kind "ssl", not "tls" — with invalid login
classified as auth, connection refused/reset/aborted as network, timeouts as
timeout, and TLS/certificate validation failures as ssl; the kind is
surfaced in the returned per-endpoint result. -/
theorem claim_C8_amended (conn : VComp.ConnState) :
    (VComp.VCenterConnection.connect conn VComp.ConnectOutcome.invalidLogin).2.error_type
        = some "auth" ∧
    (VComp.VCenterConnection.connect conn VComp.ConnectOutcome.connectionRefused).2.error_type
        = some "network" ∧
    (VComp.VCenterConnection.connect conn VComp.ConnectOutcome.connectionReset).2.error_type
        = some "network" ∧
    (VComp.VCenterConnection.connect conn VComp.ConnectOutcome.timeoutError).2.error_type
        = some "timeout" ∧
    (VComp.VCenterConnection.connect conn VComp.ConnectOutcome.socketTimeout).2.error_type
        = some "timeout" ∧
    (∀ m, (VComp.VCenterConnection.connect conn (VComp.ConnectOutcome.sslError m)).2.error_type
        = some "ssl") ∧
    (∀ o, o ≠ VComp.ConnectOutcome.success →
      (VComp.VCenterConnection.connect conn o).2.success = false ∧
      ∃ t, (VComp.VCenterConnection.connect conn o).2.error_type = some t ∧
        t ∈ ["auth", "network", "timeout", "ssl", "unknown"]) := by
  refine ⟨rfl, rfl, rfl, rfl, rfl, fun m => rfl, ?_⟩
  intro o ho
  cases o with
  | success => exact absurd rfl ho
  | invalidLogin => exact ⟨rfl, "auth", rfl, by simp⟩
  | connectionRefused => exact ⟨rfl, "network", rfl, by simp⟩
  | connectionReset => exact ⟨rfl, "network", rfl, by simp⟩
  | connectionAborted => exact ⟨rfl, "network", rfl, by simp⟩
  | timeoutError => exact ⟨rfl, "timeout", rfl, by simp⟩
  | socketTimeout => exact ⟨rfl, "timeout", rfl, by simp⟩
  | sslError m => exact ⟨rfl, "ssl", rfl, by simp⟩
  | osError m =>
    by_cases h1 : VComp.containsSub m.toLower "timed out"
    · refine ⟨?_, "timeout", ?_, by simp⟩ <;>
        simp [VComp.VCenterConnection.connect, h1]
    · by_cases h2 : VComp.containsSub m.toLower "no route to host" ∨
        VComp.containsSub m.toLower "unreachable"
      · refine ⟨?_, "network", ?_, by simp⟩ <;>
          simp [VComp.VCenterConnection.connect, h1, h2]
      · refine ⟨?_, "network", ?_, by simp⟩ <;>
          simp [VComp.VCenterConnection.connect, h1, h2]
  | otherError m => exact ⟨rfl, "unknown", rfl, by simp⟩

/-- Claim C8 witness: the amended classification evaluated at the vc1
connection, with a concrete TLS failure discharging the non-success
hypothesis. -/
theorem claim_C8_amended_witness :
    (VComp.VCenterConnection.connect VComp.connEx
        VComp.ConnectOutcome.invalidLogin).2.error_type = some "auth" ∧
    ∃ t, (VComp.VCenterConnection.connect VComp.connEx
        (VComp.ConnectOutcome.sslError "boom")).2.error_type = some t ∧
      t ∈ ["auth", "network", "timeout", "ssl", "unknown"] :=
  ⟨(claim_C8_amended VComp.connEx).1,
   ((claim_C8_amended VComp.connEx).2.2.2.2.2.2
      (VComp.ConnectOutcome.sslError "boom") (by simp)).2⟩

/-- Claim C9 counterexample: a connection holding a session whose liveness
probe raises has `is_alive` return false while the session reference `si`
is left in place — the claim demands that the session be torn down
(`si` cleared) after the failed probe. -/
theorem claim_C9_counterexample :
    (VComp.VCenterConnection.is_alive VComp.connLive
        VComp.ProbeOutcome.throws).1 = false ∧
    (VComp.VCenterConnection.is_alive VComp.connLive
        VComp.ProbeOutcome.throws).2.si = true := by
  refine ⟨?_, ?_⟩ <;> decide

/-- Claim C9 (amended): when the liveness probe raises, `is_alive` returns
false but performs no teardown — the connection state (including the held
session reference) is returned unchanged; the session reference is cleared
only by an explicit `disconnect`. -/
theorem claim_C9_amended (conn : VComp.ConnState) (h : conn.si = true) :
    VComp.VCenterConnection.is_alive conn VComp.ProbeOutcome.throws = (false, conn) ∧
    (VComp.VCenterConnection.is_alive conn VComp.ProbeOutcome.throws).2.si = true ∧
    (VComp.VCenterConnection.disconnect conn).si = false := by
  refine ⟨?_, ?_, ?_⟩ <;> simp [VComp.VCenterConnection.is_alive,
    VComp.VCenterConnection.disconnect, h]

/-- Claim C9 witness: the amended statement evaluated at the live vc1
connection. -/
theorem claim_C9_amended_witness :
    VComp.VCenterConnection.is_alive VComp.connLive VComp.ProbeOutcome.throws =
      (false, VComp.connLive) ∧
    (VComp.VCenterConnection.is_alive VComp.connLive
        VComp.ProbeOutcome.throws).2.si = true ∧
    (VComp.VCenterConnection.disconnect VComp.connLive).si = false :=
  claim_C9_amended VComp.connLive rfl

namespace VComp

/-- An empty on-disk cache directory (no category files). -/
def diskEmpty : DiskState :=
  { vcentersFile := none
    vmsFile := none
    hostsFile := none
    alertsFile := none
    networksFile := none
    storageFile := none
    clustersFile := none }

/-- The manager built from the two-endpoint registry (vc1 enabled, vc2
disabled). -/
def managerEx : ManagerState := VCenterManager.init [cfgVC1, cfgVC2]

end VComp

/-- Claim C6 counterexample: with the cache locked and the key derivation
failing, `connect_all` targeted at the known endpoint vc1 returns the empty
result map — vc1 has no entry at all, so the map does not mark the targeted
endpoint as failed, contrary to the claim's all-false map. -/
theorem claim_C6_counterexample :
    (VComp.VCenterManager.connect_all VComp.managerEx VComp.CacheService.init
        VComp.diskEmpty VComp.DeriveOutcome.fail "pw" 7
        (fun _ => VComp.ConnectOutcome.success) (some ["vc1"]) 0).results = [] ∧
    VComp.lookup (VComp.VCenterManager.connect_all VComp.managerEx
        VComp.CacheService.init VComp.diskEmpty VComp.DeriveOutcome.fail "pw" 7
        (fun _ => VComp.ConnectOutcome.success) (some ["vc1"]) 0).results "vc1"
      = none ∧
    VComp.lookup VComp.managerEx.connections "vc1" ≠ none := by
  refine ⟨?_, ?_, ?_⟩ <;> decide

/-- Claim C6 (amended): a `connect_all` call made while the cache is locked
and whose `derive_key` fails returns immediately with the empty result map
(so no targeted endpoint is marked successful — but also no per-endpoint
failure entries are produced), the cache and manager unchanged, and no
connection attempt made on any endpoint. -/
theorem claim_C6_amended (m : VComp.ManagerState) (c : VComp.CacheState)
    (disk : VComp.DiskState) (password : String) (salt : Nat)
    (behavior : String → VComp.ConnectOutcome)
    (selected : Option (List String)) (now : Int)
    (h : c.is_unlocked = false) :
    VComp.VCenterManager.connect_all m c disk VComp.DeriveOutcome.fail password
        salt behavior selected now =
      { results := [], cache := c, manager := m, attempted := [] } := by
  simp [VComp.VCenterManager.connect_all, VComp.CacheService.derive_key,
    VComp.kdf, h]

/-- Claim C6 witness: the amended statement evaluated at the concrete locked
store and two-endpoint manager. -/
theorem claim_C6_amended_witness :
    VComp.VCenterManager.connect_all VComp.managerEx VComp.CacheService.init
        VComp.diskEmpty VComp.DeriveOutcome.fail "pw" 7
        (fun _ => VComp.ConnectOutcome.success) (some ["vc1"]) 0 =
      { results := [], cache := VComp.CacheService.init,
        manager := VComp.managerEx, attempted := [] } :=
  claim_C6_amended VComp.managerEx VComp.CacheService.init VComp.diskEmpty
    "pw" 7 (fun _ => VComp.ConnectOutcome.success) (some ["vc1"]) 0 rfl

namespace VComp

/-- Every in-memory category of the store is empty (the state after
construction or after `lock`). -/
def emptyData (c : CacheState) : Prop :=
  c.vcenters = [] ∧ c.vms = [] ∧ c.hosts = [] ∧ c.alerts = [] ∧
  c.networks = [] ∧ c.storage = [] ∧ c.clusters = []

lemma loadCat_of_none {α : Type} (key : Nat × String)
    (file : Option (EncFile (List (String × α))))
    (h : decryptFile key file = none) : loadCat key file [] = [] := by
  simp [loadCat, h]

lemma loadCat_of_some {α : Type} (key : Nat × String)
    (file : Option (EncFile (List (String × α)))) (pl : List (String × α))
    (h : decryptFile key file = some pl) (hnd : keysNodup pl) :
    loadCat key file [] = pl := by
  simp [loadCat, h, updateAll_nil pl hnd]

/-- A cached host record used by concrete witnesses. -/
def hostEx : HostRec := { vcenter_id := "vc1", name := "esx1", in_maintenance := false }

/-- A disk state with a corrupt VM file and a valid hosts file encrypted
under the key derived from salt 7 and password "pw". -/
def diskMixed : DiskState :=
  { vcentersFile := none
    vmsFile := some .corrupt
    hostsFile := some (.enc (7, "pw") [("vc1", [hostEx])])
    alertsFile := some (.enc (7, "other") [("vc1", [])])
    networksFile := none
    storageFile := none
    clustersFile := none }

end VComp

/-- Claim C2: for every password (correct or wrong), `derive_key` with the
derivation machinery functioning returns true and leaves the store unlocked;
every one of the seven on-disk category files that fails to decrypt under
the derived key (wrong password, corruption, or a missing file) is dropped
independently, leaving that category empty, while every category whose file
does decrypt still loads its contents. -/
theorem claim_C2 (password : String) (salt : Nat) (disk : VComp.DiskState)
    (c : VComp.CacheState) (h : VComp.emptyData c) :
    (VComp.CacheService.derive_key VComp.DeriveOutcome.ok password salt disk c).1
        = true ∧
    (VComp.CacheService.derive_key VComp.DeriveOutcome.ok password salt disk c).2.is_unlocked
        = true ∧
    (VComp.decryptFile (salt, password) disk.vcentersFile = none →
      (VComp.CacheService.derive_key VComp.DeriveOutcome.ok password salt disk c).2.vcenters = []) ∧
    (VComp.decryptFile (salt, password) disk.vmsFile = none →
      (VComp.CacheService.derive_key VComp.DeriveOutcome.ok password salt disk c).2.vms = []) ∧
    (VComp.decryptFile (salt, password) disk.hostsFile = none →
      (VComp.CacheService.derive_key VComp.DeriveOutcome.ok password salt disk c).2.hosts = []) ∧
    (VComp.decryptFile (salt, password) disk.alertsFile = none →
      (VComp.CacheService.derive_key VComp.DeriveOutcome.ok password salt disk c).2.alerts = []) ∧
    (VComp.decryptFile (salt, password) disk.networksFile = none →
      (VComp.CacheService.derive_key VComp.DeriveOutcome.ok password salt disk c).2.networks = []) ∧
    (VComp.decryptFile (salt, password) disk.storageFile = none →
      (VComp.CacheService.derive_key VComp.DeriveOutcome.ok password salt disk c).2.storage = []) ∧
    (VComp.decryptFile (salt, password) disk.clustersFile = none →
      (VComp.CacheService.derive_key VComp.DeriveOutcome.ok password salt disk c).2.clusters = []) ∧
    (∀ pl, VComp.decryptFile (salt, password) disk.vcentersFile = some pl →
      VComp.keysNodup pl →
      (VComp.CacheService.derive_key VComp.DeriveOutcome.ok password salt disk c).2.vcenters = pl) ∧
    (∀ pl, VComp.decryptFile (salt, password) disk.vmsFile = some pl →
      VComp.keysNodup pl →
      (VComp.CacheService.derive_key VComp.DeriveOutcome.ok password salt disk c).2.vms = pl) ∧
    (∀ pl, VComp.decryptFile (salt, password) disk.hostsFile = some pl →
      VComp.keysNodup pl →
      (VComp.CacheService.derive_key VComp.DeriveOutcome.ok password salt disk c).2.hosts = pl) ∧
    (∀ pl, VComp.decryptFile (salt, password) disk.alertsFile = some pl →
      VComp.keysNodup pl →
      (VComp.CacheService.derive_key VComp.DeriveOutcome.ok password salt disk c).2.alerts = pl) ∧
    (∀ pl, VComp.decryptFile (salt, password) disk.networksFile = some pl →
      VComp.keysNodup pl →
      (VComp.CacheService.derive_key VComp.DeriveOutcome.ok password salt disk c).2.networks = pl) ∧
    (∀ pl, VComp.decryptFile (salt, password) disk.storageFile = some pl →
      VComp.keysNodup pl →
      (VComp.CacheService.derive_key VComp.DeriveOutcome.ok password salt disk c).2.storage = pl) ∧
    (∀ pl, VComp.decryptFile (salt, password) disk.clustersFile = some pl →
      VComp.keysNodup pl →
      (VComp.CacheService.derive_key VComp.DeriveOutcome.ok password salt disk c).2.clusters = pl) := by
  obtain ⟨h1, h2, h3, h4, h5, h6, h7⟩ := h
  unfold VComp.CacheService.derive_key VComp.kdf
  refine ⟨rfl, rfl, ?_, ?_, ?_, ?_, ?_, ?_, ?_, ?_, ?_, ?_, ?_, ?_, ?_, ?_⟩
  · intro hd; simp [h1, VComp.loadCat_of_none _ _ hd]
  · intro hd; simp [h2, VComp.loadCat_of_none _ _ hd]
  · intro hd; simp [h3, VComp.loadCat_of_none _ _ hd]
  · intro hd; simp [h4, VComp.loadCat_of_none _ _ hd]
  · intro hd; simp [h5, VComp.loadCat_of_none _ _ hd]
  · intro hd; simp [h6, VComp.loadCat_of_none _ _ hd]
  · intro hd; simp [h7, VComp.loadCat_of_none _ _ hd]
  · intro pl hd hnd; simp [h1, VComp.loadCat_of_some _ _ pl hd hnd]
  · intro pl hd hnd; simp [h2, VComp.loadCat_of_some _ _ pl hd hnd]
  · intro pl hd hnd; simp [h3, VComp.loadCat_of_some _ _ pl hd hnd]
  · intro pl hd hnd; simp [h4, VComp.loadCat_of_some _ _ pl hd hnd]
  · intro pl hd hnd; simp [h5, VComp.loadCat_of_some _ _ pl hd hnd]
  · intro pl hd hnd; simp [h6, VComp.loadCat_of_some _ _ pl hd hnd]
  · intro pl hd hnd; simp [h7, VComp.loadCat_of_some _ _ pl hd hnd]

/-- Claim C2 witness: unlocking the freshly constructed (locked, empty)
store against a disk holding a corrupt VM file, a hosts file encrypted under
the matching key, an alerts file encrypted under a different password's key,
and no other files: derive_key returns true, the store is unlocked, the VM,
alert, network, storage and cluster categories are empty, and the hosts
category loads its payload. -/
theorem claim_C2_witness :
    (VComp.CacheService.derive_key VComp.DeriveOutcome.ok "pw" 7 VComp.diskMixed
        VComp.CacheService.init).1 = true ∧
    (VComp.CacheService.derive_key VComp.DeriveOutcome.ok "pw" 7 VComp.diskMixed
        VComp.CacheService.init).2.is_unlocked = true ∧
    (VComp.CacheService.derive_key VComp.DeriveOutcome.ok "pw" 7 VComp.diskMixed
        VComp.CacheService.init).2.vms = [] ∧
    (VComp.CacheService.derive_key VComp.DeriveOutcome.ok "pw" 7 VComp.diskMixed
        VComp.CacheService.init).2.alerts = [] ∧
    (VComp.CacheService.derive_key VComp.DeriveOutcome.ok "pw" 7 VComp.diskMixed
        VComp.CacheService.init).2.networks = [] ∧
    (VComp.CacheService.derive_key VComp.DeriveOutcome.ok "pw" 7 VComp.diskMixed
        VComp.CacheService.init).2.storage = [] ∧
    (VComp.CacheService.derive_key VComp.DeriveOutcome.ok "pw" 7 VComp.diskMixed
        VComp.CacheService.init).2.clusters = [] ∧
    (VComp.CacheService.derive_key VComp.DeriveOutcome.ok "pw" 7 VComp.diskMixed
        VComp.CacheService.init).2.hosts = [("vc1", [VComp.hostEx])] := by
  obtain ⟨g1, g2, g3, g4, g5, g6, g7, g8, g9, g10, g11, g12, g13, g14, g15,
      g16⟩ :=
    claim_C2 "pw" 7 VComp.diskMixed VComp.CacheService.init
      ⟨rfl, rfl, rfl, rfl, rfl, rfl, rfl⟩
  exact ⟨g1, g2, g4 (by decide), g6 (by decide), g7 (by decide),
    g8 (by decide), g9 (by decide),
    g12 [("vc1", [VComp.hostEx])] (by decide) (by simp [VComp.keysNodup])⟩


namespace VComp

/-- Every in-memory category dictionary of the store has pairwise-distinct
keys — automatically true of the Python dicts being modelled. -/
def goodKeys (c : CacheState) : Prop :=
  keysNodup c.vcenters ∧ keysNodup c.vms ∧ keysNodup c.hosts ∧
  keysNodup c.alerts ∧ keysNodup c.networks ∧ keysNodup c.storage ∧
  keysNodup c.clusters

end VComp

/-- Claim C5: when every in-memory category equals what `_save_to_disk` last
persisted (here: the disk is exactly the result of a full `_save_to_disk` on
the current unlocked store) and the store was unlocked under the key derived
from (salt, password), then `lock()` followed by `derive_key` with the same
password restores exactly the category contents that existed before locking,
with no writes in between. -/
theorem claim_C5 (password : String) (salt : Nat) (disk : VComp.DiskState)
    (c : VComp.CacheState) (hunl : c.is_unlocked = true)
    (hkey : c.fernet = some (salt, password)) (hgood : VComp.goodKeys c) :
    (VComp.CacheService.derive_key VComp.DeriveOutcome.ok password salt
        (VComp.CacheService.save_all_to_disk c disk)
        (VComp.CacheService.lock c)).1 = true ∧
    (VComp.CacheService.derive_key VComp.DeriveOutcome.ok password salt
        (VComp.CacheService.save_all_to_disk c disk)
        (VComp.CacheService.lock c)).2.is_unlocked = true ∧
    (VComp.CacheService.derive_key VComp.DeriveOutcome.ok password salt
        (VComp.CacheService.save_all_to_disk c disk)
        (VComp.CacheService.lock c)).2.vcenters = c.vcenters ∧
    (VComp.CacheService.derive_key VComp.DeriveOutcome.ok password salt
        (VComp.CacheService.save_all_to_disk c disk)
        (VComp.CacheService.lock c)).2.vms = c.vms ∧
    (VComp.CacheService.derive_key VComp.DeriveOutcome.ok password salt
        (VComp.CacheService.save_all_to_disk c disk)
        (VComp.CacheService.lock c)).2.hosts = c.hosts ∧
    (VComp.CacheService.derive_key VComp.DeriveOutcome.ok password salt
        (VComp.CacheService.save_all_to_disk c disk)
        (VComp.CacheService.lock c)).2.alerts = c.alerts ∧
    (VComp.CacheService.derive_key VComp.DeriveOutcome.ok password salt
        (VComp.CacheService.save_all_to_disk c disk)
        (VComp.CacheService.lock c)).2.networks = c.networks ∧
    (VComp.CacheService.derive_key VComp.DeriveOutcome.ok password salt
        (VComp.CacheService.save_all_to_disk c disk)
        (VComp.CacheService.lock c)).2.storage = c.storage ∧
    (VComp.CacheService.derive_key VComp.DeriveOutcome.ok password salt
        (VComp.CacheService.save_all_to_disk c disk)
        (VComp.CacheService.lock c)).2.clusters = c.clusters := by
  obtain ⟨g1, g2, g3, g4, g5, g6, g7⟩ := hgood
  have hdisk : VComp.CacheService.save_all_to_disk c disk =
      { vcentersFile := some (.enc (salt, password) c.vcenters)
        vmsFile := some (.enc (salt, password) c.vms)
        hostsFile := some (.enc (salt, password) c.hosts)
        alertsFile := some (.enc (salt, password) c.alerts)
        networksFile := some (.enc (salt, password) c.networks)
        storageFile := some (.enc (salt, password) c.storage)
        clustersFile := some (.enc (salt, password) c.clusters) } := by
    simp [VComp.CacheService.save_all_to_disk, hunl, hkey]
  rw [hdisk]
  unfold VComp.CacheService.derive_key VComp.kdf VComp.CacheService.lock
  refine ⟨rfl, rfl, ?_, ?_, ?_, ?_, ?_, ?_, ?_⟩ <;>
    simp [VComp.loadCat, VComp.decryptFile, VComp.updateAll_nil, g1, g2, g3,
      g4, g5, g6, g7]

/-- Claim C5 witness: the round trip evaluated at the concrete unlocked
store whose endpoint vc1 has completed an (empty) refresh. -/
theorem claim_C5_witness :
    (VComp.CacheService.derive_key VComp.DeriveOutcome.ok "pw" 7
        (VComp.CacheService.save_all_to_disk VComp.cacheAfterEmptyRefresh
          VComp.diskEmpty)
        (VComp.CacheService.lock VComp.cacheAfterEmptyRefresh)).1 = true ∧
    (VComp.CacheService.derive_key VComp.DeriveOutcome.ok "pw" 7
        (VComp.CacheService.save_all_to_disk VComp.cacheAfterEmptyRefresh
          VComp.diskEmpty)
        (VComp.CacheService.lock VComp.cacheAfterEmptyRefresh)).2.vcenters =
      VComp.cacheAfterEmptyRefresh.vcenters ∧
    (VComp.CacheService.derive_key VComp.DeriveOutcome.ok "pw" 7
        (VComp.CacheService.save_all_to_disk VComp.cacheAfterEmptyRefresh
          VComp.diskEmpty)
        (VComp.CacheService.lock VComp.cacheAfterEmptyRefresh)).2.vms =
      VComp.cacheAfterEmptyRefresh.vms := by
  have h := claim_C5 "pw" 7 VComp.diskEmpty VComp.cacheAfterEmptyRefresh rfl rfl
    ⟨by simp [VComp.keysNodup, VComp.cacheAfterEmptyRefresh],
     by simp [VComp.keysNodup, VComp.cacheAfterEmptyRefresh],
     by simp [VComp.keysNodup, VComp.cacheAfterEmptyRefresh],
     by simp [VComp.keysNodup, VComp.cacheAfterEmptyRefresh],
     by simp [VComp.keysNodup, VComp.cacheAfterEmptyRefresh],
     by simp [VComp.keysNodup, VComp.cacheAfterEmptyRefresh],
     by simp [VComp.keysNodup, VComp.cacheAfterEmptyRefresh]⟩
  exact ⟨h.1, h.2.2.1, h.2.2.2.1⟩

namespace VComp

/-- The "locked implies empty" invariant of the cache store. -/
def lockedEmpty (c : CacheState) : Prop :=
  c.is_unlocked = false → emptyData c

lemma lockedEmpty_of_unlocked {c : CacheState} (h : c.is_unlocked = true) :
    lockedEmpty c := by
  intro hf
  rw [h] at hf
  exact absurd hf (by simp)

end VComp

/-- Claim C10: the store preserves "locked implies empty".  On a locked
store every mutating operation (`update_vcenter_status`,
`update_vcenter_metadata`, and the six `save_*` operations) returns
immediately, leaving both the in-memory state and the on-disk files
untouched (and, being total functions, without raising); and every operation
(`lock`, `derive_key` under both derivation outcomes, and all eight
mutators) carries the invariant to its result state. -/
theorem claim_C10 (c : VComp.CacheState) (disk : VComp.DiskState)
    (env : VComp.DeriveOutcome) (password : String) (salt : Nat)
    (vc_id nm st : String) (err : Option String)
    (md md2 : List (String × Option String)) (now : Int)
    (vsL : List VComp.VMRec) (hsL : List VComp.HostRec)
    (alL : List VComp.AlertRec) (neL stL : List (String × String))
    (clL : List VComp.ClusterRec) :
    (c.is_unlocked = false →
      VComp.CacheService.update_vcenter_status c disk vc_id nm st err md now = (c, disk) ∧
      VComp.CacheService.update_vcenter_metadata c disk vc_id md2 = (c, disk) ∧
      VComp.CacheService.save_vms c disk vc_id vsL = (c, disk) ∧
      VComp.CacheService.save_hosts c disk vc_id hsL = (c, disk) ∧
      VComp.CacheService.save_alerts c disk vc_id alL = (c, disk) ∧
      VComp.CacheService.save_networks c disk vc_id neL = (c, disk) ∧
      VComp.CacheService.save_storage c disk vc_id stL = (c, disk) ∧
      VComp.CacheService.save_clusters c disk vc_id clL = (c, disk)) ∧
    (VComp.lockedEmpty c →
      VComp.lockedEmpty (VComp.CacheService.lock c) ∧
      VComp.lockedEmpty (VComp.CacheService.derive_key env password salt disk c).2 ∧
      VComp.lockedEmpty (VComp.CacheService.update_vcenter_status c disk vc_id nm st err md now).1 ∧
      VComp.lockedEmpty (VComp.CacheService.update_vcenter_metadata c disk vc_id md2).1 ∧
      VComp.lockedEmpty (VComp.CacheService.save_vms c disk vc_id vsL).1 ∧
      VComp.lockedEmpty (VComp.CacheService.save_hosts c disk vc_id hsL).1 ∧
      VComp.lockedEmpty (VComp.CacheService.save_alerts c disk vc_id alL).1 ∧
      VComp.lockedEmpty (VComp.CacheService.save_networks c disk vc_id neL).1 ∧
      VComp.lockedEmpty (VComp.CacheService.save_storage c disk vc_id stL).1 ∧
      VComp.lockedEmpty (VComp.CacheService.save_clusters c disk vc_id clL).1) := by
  constructor
  · intro h
    refine ⟨?_, ?_, ?_, ?_, ?_, ?_, ?_, ?_⟩ <;>
      simp [VComp.CacheService.update_vcenter_status,
        VComp.CacheService.update_vcenter_metadata, VComp.CacheService.save_vms,
        VComp.CacheService.save_hosts, VComp.CacheService.save_alerts,
        VComp.CacheService.save_networks, VComp.CacheService.save_storage,
        VComp.CacheService.save_clusters, h]
  · intro hinv
    have hlock : VComp.lockedEmpty (VComp.CacheService.lock c) := by
      intro _
      exact ⟨rfl, rfl, rfl, rfl, rfl, rfl, rfl⟩
    have hderive : VComp.lockedEmpty
        (VComp.CacheService.derive_key env password salt disk c).2 := by
      cases env with
      | ok =>
        apply VComp.lockedEmpty_of_unlocked
        rfl
      | fail => exact hinv
    by_cases hu : c.is_unlocked = true
    · refine ⟨hlock, hderive, ?_, ?_, ?_, ?_, ?_, ?_, ?_, ?_⟩
      · apply VComp.lockedEmpty_of_unlocked
        simp [VComp.CacheService.update_vcenter_status, hu]
      · unfold VComp.CacheService.update_vcenter_metadata
        rw [if_pos hu]
        cases VComp.lookup c.vcenters vc_id with
        | some stv => exact VComp.lockedEmpty_of_unlocked (by simpa using hu)
        | none => exact hinv
      · exact VComp.lockedEmpty_of_unlocked (by simp [VComp.CacheService.save_vms, hu])
      · exact VComp.lockedEmpty_of_unlocked (by simp [VComp.CacheService.save_hosts, hu])
      · exact VComp.lockedEmpty_of_unlocked (by simp [VComp.CacheService.save_alerts, hu])
      · exact VComp.lockedEmpty_of_unlocked (by simp [VComp.CacheService.save_networks, hu])
      · exact VComp.lockedEmpty_of_unlocked (by simp [VComp.CacheService.save_storage, hu])
      · exact VComp.lockedEmpty_of_unlocked (by simp [VComp.CacheService.save_clusters, hu])
    · have h : c.is_unlocked = false := by
        cases hc : c.is_unlocked with
        | false => rfl
        | true => exact absurd hc hu
      refine ⟨hlock, hderive, ?_, ?_, ?_, ?_, ?_, ?_, ?_, ?_⟩ <;>
        simp [VComp.CacheService.update_vcenter_status,
          VComp.CacheService.update_vcenter_metadata, VComp.CacheService.save_vms,
          VComp.CacheService.save_hosts, VComp.CacheService.save_alerts,
          VComp.CacheService.save_networks, VComp.CacheService.save_storage,
          VComp.CacheService.save_clusters, h, hinv]

/-- Claim C10 witness: the no-op equations and invariant preservation
evaluated on the freshly constructed (locked, empty) store. -/
theorem claim_C10_witness :
    VComp.CacheService.save_vms VComp.CacheService.init VComp.diskEmpty "vc1"
        [] = (VComp.CacheService.init, VComp.diskEmpty) ∧
    VComp.CacheService.update_vcenter_status VComp.CacheService.init
        VComp.diskEmpty "vc1" "VC One" "READY" none [] 0 =
      (VComp.CacheService.init, VComp.diskEmpty) ∧
    VComp.lockedEmpty (VComp.CacheService.lock VComp.CacheService.init) := by
  have h := claim_C10 VComp.CacheService.init VComp.diskEmpty
    VComp.DeriveOutcome.ok "pw" 7 "vc1" "VC One" "READY" none [] [] 0
    [] [] [] [] [] []
  have hinv : VComp.lockedEmpty VComp.CacheService.init := by
    intro _
    exact ⟨rfl, rfl, rfl, rfl, rfl, rfl, rfl⟩
  exact ⟨(h.1 rfl).2.2.1, (h.1 rfl).1, (h.2 hinv).1⟩

namespace VComp

/-- An unlocked cache store with no cached data yet. -/
def cacheUnlockedEmpty : CacheState :=
  { CacheService.init with is_unlocked := true, fernet := some (7, "pw") }

/-- A status entry recording a refresh cycle in flight since time 100. -/
def statusRefreshingVC1 : VCStatus :=
  { id := "vc1"
    name := "VC One"
    last_refresh := some 100
    status := "REFRESHING"
    error_message := none
    metadata := [] }

/-- An unlocked cache store whose endpoint vc1 is currently REFRESHING. -/
def cacheRefreshing : CacheState :=
  { cacheUnlockedEmpty with vcenters := [("vc1", statusRefreshingVC1)] }

/-- A concrete `about` record for witnesses. -/
def aboutEx : AboutInfo :=
  { version := "8.0.2"
    build := "12345"
    fullName := "VMware vCenter Server"
    apiType := "VirtualCenter" }

/-- Concrete fetch outcomes for witnesses: hosts and VMs succeed, the alert,
network, cluster and storage bodies throw, the about access succeeds. -/
def outEx : FetchOutcomes :=
  { hostsBody := .ok [hostEx]
    vmsBody := .ok []
    alertsBody := .threw
    networksBody := .threw
    clustersBody := .threw
    storageBody := .threw
    about := .ok aboutEx }

end VComp

/-- Claim C3: when an endpoint's cached status is REFRESHING and its
last_refresh timestamp is less than 300 seconds old, a further refresh task
for that endpoint returns before performing any fetch or writing any status
(cache and disk unchanged, cycle not executed), so at most one cycle is in
flight; when the REFRESHING state is 300 seconds old or older it is treated
as abandoned and the fresh attempt proceeds. -/
theorem claim_C3 (c : VComp.CacheState) (disk : VComp.DiskState)
    (conn : VComp.ConnState) (vc_id : String) (out : VComp.FetchOutcomes)
    (now : Int) (st : VComp.VCStatus)
    (hst : VComp.CacheService.get_vcenter_status_one c vc_id = some st)
    (href : st.status = "REFRESHING") :
    (∀ lt, st.last_refresh = some lt → now - lt < 300 →
      VComp.VCenterManager.refresh_task c disk conn vc_id out now =
        { cache := c, disk := disk, executed := false }) ∧
    (∀ lt, st.last_refresh = some lt → 300 ≤ now - lt →
      (VComp.VCenterManager.refresh_task c disk conn vc_id out now).executed
        = true) := by
  constructor
  · intro lt hlt hfresh
    have hg : VComp.VCenterManager.refreshDupGuard c vc_id now = true := by
      unfold VComp.VCenterManager.refreshDupGuard
      rw [hst]
      simp [href, hlt, hfresh]
    unfold VComp.VCenterManager.refresh_task
    simp [hg]
  · intro lt hlt hstale
    have hnot : ¬ (now - lt < 300) := not_lt.mpr hstale
    have hg : VComp.VCenterManager.refreshDupGuard c vc_id now = false := by
      unfold VComp.VCenterManager.refreshDupGuard
      rw [hst]
      simp [href, hlt, hnot]
    unfold VComp.VCenterManager.refresh_task
    rw [hg]
    simp only [Bool.false_eq_true, if_false]
    split <;> rfl

/-- Claim C3 witness: on the concrete store whose vc1 status is REFRESHING
since time 100, a duplicate task at time 200 is a no-op, while a task at
time 400 (staleness 300) proceeds. -/
theorem claim_C3_witness :
    VComp.VCenterManager.refresh_task VComp.cacheRefreshing VComp.diskEmpty
        VComp.connLive "vc1" VComp.outEx 200 =
      { cache := VComp.cacheRefreshing, disk := VComp.diskEmpty,
        executed := false } ∧
    (VComp.VCenterManager.refresh_task VComp.cacheRefreshing VComp.diskEmpty
        VComp.connLive "vc1" VComp.outEx 400).executed = true := by
  have h := claim_C3 VComp.cacheRefreshing VComp.diskEmpty VComp.connLive
    "vc1" VComp.outEx 200 VComp.statusRefreshingVC1 (by decide) rfl
  have h2 := claim_C3 VComp.cacheRefreshing VComp.diskEmpty VComp.connLive
    "vc1" VComp.outEx 400 VComp.statusRefreshingVC1 (by decide) rfl
  exact ⟨h.1 100 rfl (by decide), h2.2 100 rfl (by decide)⟩

/-- Claim C4: a refresh cycle in which the body of the fetch-alerts sub-step
throws (caught inside `get_alerts_speed`, which degrades to an empty list)
while the hosts and VMs sub-steps succeed still writes the updated host and
VM snapshots into the cache, stores an empty alert list, and finishes with
the endpoint's status set to READY, not ERROR. -/
theorem claim_C4 (c : VComp.CacheState) (disk : VComp.DiskState)
    (conn : VComp.ConnState) (vc_id : String) (hs : List VComp.HostRec)
    (vs : List VComp.VMRec) (now : Int) (ab : VComp.AboutInfo)
    (netB : VComp.FetchResult (List (String × String)))
    (cluB : VComp.FetchResult (List VComp.ClusterRec))
    (stoB : VComp.FetchResult (List (String × String)))
    (hunl : c.is_unlocked = true) (hcont : conn.content = true)
    (hguard : VComp.VCenterManager.refreshDupGuard c vc_id now = false) :
    (VComp.VCenterManager.refresh_task c disk conn vc_id
        ⟨.ok hs, .ok vs, .threw, netB, cluB, stoB, .ok ab⟩ now).executed
      = true ∧
    VComp.lookup (VComp.VCenterManager.refresh_task c disk conn vc_id
        ⟨.ok hs, .ok vs, .threw, netB, cluB, stoB, .ok ab⟩ now).cache.hosts
        vc_id = some hs ∧
    VComp.lookup (VComp.VCenterManager.refresh_task c disk conn vc_id
        ⟨.ok hs, .ok vs, .threw, netB, cluB, stoB, .ok ab⟩ now).cache.vms
        vc_id = some vs ∧
    VComp.lookup (VComp.VCenterManager.refresh_task c disk conn vc_id
        ⟨.ok hs, .ok vs, .threw, netB, cluB, stoB, .ok ab⟩ now).cache.alerts
        vc_id = some [] ∧
    (VComp.lookup (VComp.VCenterManager.refresh_task c disk conn vc_id
        ⟨.ok hs, .ok vs, .threw, netB, cluB, stoB, .ok ab⟩ now).cache.vcenters
        vc_id).map (fun q => q.status) = some "READY" := by
  unfold VComp.VCenterManager.refresh_task
  rw [hguard]
  simp [VComp.CacheService.update_vcenter_status, VComp.CacheService.save_hosts,
    VComp.CacheService.save_vms, VComp.CacheService.save_alerts,
    VComp.CacheService.save_networks, VComp.CacheService.save_clusters,
    VComp.CacheService.save_storage, VComp.CacheService.saveFile,
    VComp.VCenterConnection.get_hosts_speed,
    VComp.VCenterConnection.get_vms_speed,
    VComp.VCenterConnection.get_alerts_speed,
    VComp.VCenterConnection.get_networks_speed,
    VComp.VCenterConnection.get_clusters,
    VComp.VCenterConnection.get_storage_speed,
    hunl, hcont, VComp.lookup_upsert]

/-- Claim C4 witness: the partial-failure cycle evaluated on the concrete
unlocked store whose endpoint vc1 already holds a READY status from a prior
completed refresh (the steady-state case, for which the duplicate guard does
not fire), with one fetched host, an empty VM list, and a throwing alerts
body. -/
theorem claim_C4_witness :
    (VComp.VCenterManager.refresh_task VComp.cacheAfterEmptyRefresh
        VComp.diskEmpty VComp.connLive "vc1"
        ⟨.ok [VComp.hostEx], .ok [], .threw, .threw, .threw, .threw,
          .ok VComp.aboutEx⟩ 0).executed = true ∧
    VComp.lookup (VComp.VCenterManager.refresh_task VComp.cacheAfterEmptyRefresh
        VComp.diskEmpty VComp.connLive "vc1"
        ⟨.ok [VComp.hostEx], .ok [], .threw, .threw, .threw, .threw,
          .ok VComp.aboutEx⟩ 0).cache.hosts "vc1" = some [VComp.hostEx] ∧
    (VComp.lookup (VComp.VCenterManager.refresh_task VComp.cacheAfterEmptyRefresh
        VComp.diskEmpty VComp.connLive "vc1"
        ⟨.ok [VComp.hostEx], .ok [], .threw, .threw, .threw, .threw,
          .ok VComp.aboutEx⟩ 0).cache.vcenters "vc1").map (fun q => q.status)
      = some "READY" := by
  have h := claim_C4 VComp.cacheAfterEmptyRefresh VComp.diskEmpty VComp.connLive
    "vc1" [VComp.hostEx] [] 0 VComp.aboutEx .threw .threw .threw rfl rfl
    (by decide)
  exact ⟨h.1, h.2.1, h.2.2.2.2⟩

namespace VComp

lemma trigger_refresh_connections (m : ManagerState) (c : CacheState)
    (vid : String) (now : Int) :
    (VCenterManager.trigger_refresh m c vid now).1.connections = m.connections := by
  unfold VCenterManager.trigger_refresh
  split <;> rfl

lemma connect_all_step_keys (behavior : String → ConnectOutcome) (now : Int)
    (acc : VCenterManager.ConnectAllOutcome) (vid : String) :
    (VCenterManager.connect_all_step behavior now acc vid).manager.connections.map
        Prod.fst = acc.manager.connections.map Prod.fst := by
  unfold VCenterManager.connect_all_step
  cases hl : lookup acc.manager.connections vid with
  | none => rfl
  | some conn =>
    have hany := lookup_some_any _ _ _ hl
    by_cases hs : (VCenterConnection.connect conn (behavior vid)).2.success = true
    · simp [hs, trigger_refresh_connections, keys_upsert_mem _ _ _ hany]
    · simp [hs, keys_upsert_mem _ _ _ hany]

lemma connect_all_step_attempted (behavior : String → ConnectOutcome)
    (now : Int) (acc : VCenterManager.ConnectAllOutcome) (vid : String) :
    (VCenterManager.connect_all_step behavior now acc vid).attempted =
        acc.attempted ∨
      ((VCenterManager.connect_all_step behavior now acc vid).attempted =
          acc.attempted ++ [vid] ∧
        vid ∈ acc.manager.connections.map Prod.fst) := by
  unfold VCenterManager.connect_all_step
  cases hl : lookup acc.manager.connections vid with
  | none => exact Or.inl rfl
  | some conn => exact Or.inr ⟨rfl, lookup_some_mem_keys _ _ _ hl⟩

lemma connect_all_fold_not_attempted (behavior : String → ConnectOutcome)
    (now : Int) (d : String) (ids : List String) :
    ∀ acc : VCenterManager.ConnectAllOutcome,
      d ∉ acc.manager.connections.map Prod.fst → d ∉ acc.attempted →
      d ∉ (ids.foldl (VCenterManager.connect_all_step behavior now) acc).attempted := by
  induction ids with
  | nil => intro acc _ h2; simpa using h2
  | cons vid tl ih =>
    intro acc h1 h2
    rw [List.foldl_cons]
    apply ih
    · rw [connect_all_step_keys]
      exact h1
    · rcases connect_all_step_attempted behavior now acc vid with h | ⟨heq, hmem⟩
      · rw [h]; exact h2
      · rw [heq]
        intro hx
        rcases List.mem_append.mp hx with hx | hx
        · exact h2 hx
        · have hdv : d = vid := by simpa using hx
          rw [hdv] at h1
          exact h1 hmem

end VComp

/-- Claim C1 (the intended behaviour, with the EndpointConfig `enabled` flag
modelled as a declared field): for an endpoint d that is not enabled, the
cache read accessors (`get_all_vms`, `get_all_hosts`, `get_all_alerts`,
`get_all_clusters`, `get_all_networks`, `get_all_storage`,
`get_vcenter_status` with no id, `get_cached_stats`) are insensitive to any
cached data stored under d (removing d's entries changes no result, so the
results carry no data for d); the VCenterManager constructor keeps exactly
the enabled endpoints, `trigger_refresh(d)` is a no-op spawning no task, and
`connect_all` never attempts a connection on d. -/
theorem claim_C1 (s : VComp.Settings) (cfgs : List VComp.VCenterConfig)
    (c c2 : VComp.CacheState) (d : String) (now : Int)
    (hd : (VComp.enabled_vc_ids s).contains d = false)
    (hdc : d ∉ (cfgs.filter (fun cfg => cfg.enabled)).map (fun cfg => cfg.id)) :
    VComp.CacheService.get_all_vms s (VComp.dropEndpoint c d) =
        VComp.CacheService.get_all_vms s c ∧
    VComp.CacheService.get_all_hosts s (VComp.dropEndpoint c d) =
        VComp.CacheService.get_all_hosts s c ∧
    VComp.CacheService.get_all_alerts s (VComp.dropEndpoint c d) =
        VComp.CacheService.get_all_alerts s c ∧
    VComp.CacheService.get_all_clusters s (VComp.dropEndpoint c d) =
        VComp.CacheService.get_all_clusters s c ∧
    VComp.CacheService.get_all_networks s (VComp.dropEndpoint c d) =
        VComp.CacheService.get_all_networks s c ∧
    VComp.CacheService.get_all_storage s (VComp.dropEndpoint c d) =
        VComp.CacheService.get_all_storage s c ∧
    VComp.CacheService.get_vcenter_status_all s (VComp.dropEndpoint c d) =
        VComp.CacheService.get_vcenter_status_all s c ∧
    VComp.CacheService.get_cached_stats s (VComp.dropEndpoint c d) =
        VComp.CacheService.get_cached_stats s c ∧
    (VComp.VCenterManager.init cfgs).connections.map Prod.fst =
        (cfgs.filter (fun cfg => cfg.enabled)).map (fun cfg => cfg.id) ∧
    VComp.VCenterManager.trigger_refresh (VComp.VCenterManager.init cfgs) c2
        d now = (VComp.VCenterManager.init cfgs, false) ∧
    (∀ (disk : VComp.DiskState) (env : VComp.DeriveOutcome)
        (password : String) (salt : Nat)
        (behavior : String → VComp.ConnectOutcome)
        (selected : Option (List String)),
      d ∉ (VComp.VCenterManager.connect_all (VComp.VCenterManager.init cfgs)
          c2 disk env password salt behavior selected now).attempted) := by
  have hkeys : (VComp.VCenterManager.init cfgs).connections.map Prod.fst =
      (cfgs.filter (fun cfg => cfg.enabled)).map (fun cfg => cfg.id) := by
    unfold VComp.VCenterManager.init
    dsimp only
    rw [List.map_map]
    rfl
  have hany : ((VComp.VCenterManager.init cfgs).connections.any
      (fun p => p.1 == d)) = false := by
    rw [List.any_eq_false]
    intro p hp
    have hpk : p.1 ∈ (VComp.VCenterManager.init cfgs).connections.map Prod.fst :=
      List.mem_map.mpr ⟨p, hp, rfl⟩
    rw [hkeys] at hpk
    simp only [beq_iff_eq]
    intro heq
    rw [heq] at hpk
    exact hdc hpk
  refine ⟨?_, ?_, ?_, ?_, ?_, ?_, ?_, ?_, hkeys, ?_, ?_⟩
  · unfold VComp.CacheService.get_all_vms VComp.dropEndpoint
    dsimp only
    rw [VComp.enabledEntries_dropKey s d hd]
  · unfold VComp.CacheService.get_all_hosts VComp.dropEndpoint
    dsimp only
    rw [VComp.enabledEntries_dropKey s d hd]
  · unfold VComp.CacheService.get_all_alerts VComp.dropEndpoint
    dsimp only
    rw [VComp.enabledEntries_dropKey s d hd]
  · unfold VComp.CacheService.get_all_clusters VComp.dropEndpoint
    dsimp only
    rw [VComp.enabledEntries_dropKey s d hd]
  · unfold VComp.CacheService.get_all_networks VComp.dropEndpoint
    dsimp only
    rw [VComp.enabledEntries_dropKey s d hd]
  · unfold VComp.CacheService.get_all_storage VComp.dropEndpoint
    dsimp only
    rw [VComp.enabledEntries_dropKey s d hd]
  · unfold VComp.CacheService.get_vcenter_status_all VComp.dropEndpoint
    dsimp only
    rw [VComp.enabledEntries_dropKey s d hd]
  · unfold VComp.CacheService.get_cached_stats VComp.dropEndpoint
    dsimp only
    rw [VComp.enabledEntries_dropKey s d hd c.vms,
      VComp.enabledEntries_dropKey s d hd c.hosts,
      VComp.enabledEntries_dropKey s d hd c.alerts,
      VComp.enabledEntries_dropKey s d hd c.vcenters]
  · unfold VComp.VCenterManager.trigger_refresh
    rw [if_neg]
    intro hcond
    rw [hany] at hcond
    exact absurd hcond.2 (by simp)
  · intro disk env password salt behavior selected
    unfold VComp.VCenterManager.connect_all
    dsimp only
    split
    · simp
    · apply VComp.connect_all_fold_not_attempted
      · rw [hkeys]
        exact hdc
      · simp

namespace VComp

/-- A VM record cached under the disabled endpoint vc2. -/
def vmEx : VMRec :=
  { vcenter_id := "vc2", name := "vm1", power_state := "poweredOn",
    snapshot_count := 2 }

/-- An unlocked cache still holding stale VM data for the disabled endpoint
vc2. -/
def cacheWithDisabledData : CacheState :=
  { cacheUnlockedEmpty with vms := [("vc2", [vmEx])] }

end VComp

/-- Claim C1 witness: the enabled-endpoint restriction evaluated on the
two-endpoint registry (vc1 enabled, vc2 disabled) and a cache still holding
stale vc2 data: accessor results are unchanged when vc2's data is removed,
the constructor keeps only vc1, and `trigger_refresh "vc2"` is a no-op. -/
theorem claim_C1_witness :
    VComp.CacheService.get_all_vms VComp.settingsEx
        (VComp.dropEndpoint VComp.cacheWithDisabledData "vc2") =
      VComp.CacheService.get_all_vms VComp.settingsEx
        VComp.cacheWithDisabledData ∧
    VComp.CacheService.get_all_vms VComp.settingsEx
        VComp.cacheWithDisabledData = [] ∧
    (VComp.VCenterManager.init [VComp.cfgVC1, VComp.cfgVC2]).connections.map
        Prod.fst = ["vc1"] ∧
    VComp.VCenterManager.trigger_refresh
        (VComp.VCenterManager.init [VComp.cfgVC1, VComp.cfgVC2])
        VComp.CacheService.init "vc2" 0 =
      (VComp.VCenterManager.init [VComp.cfgVC1, VComp.cfgVC2], false) := by
  have h := claim_C1 VComp.settingsEx [VComp.cfgVC1, VComp.cfgVC2]
    VComp.cacheWithDisabledData VComp.CacheService.init "vc2" 0
    (by decide) (by decide)
  exact ⟨h.1, by decide, by decide, h.2.2.2.2.2.2.2.2.2.1⟩
